import Mathlib

/-!
Shallow embedding of the authentication-gateway program (src/index.ts):
the resolved configuration blob (`AppConfig`), the JSON
serialization/parsing used to publish and read it, the three request
handlers (config-fetch, callback/token-exchange, authorized API), the
base-URL derivation `getAPIUrl`, and the configuration-resolution step.
Machine-level collaborators (the object store, the outbound HTTP fetch)
are passed in explicitly: the store as an `Option String` (the object's
body at the well-known key, when present) and the token exchange as a
function from the outbound request to its observable result.
-/

/-- The resolved configuration blob, from the `AppConfig` interface
(src/index.ts lines 17-24), fields in declaration order. -/
structure AppConfig where
  clientID : String
  redirectUrl : String
  authEndpoint : String
  apiUrl : String
  signUpUrl : String
  signInUrl : String
  deriving Repr, DecidableEq

/-- Lowercase hexadecimal digit for a value below 16, as produced by
JavaScript when JSON-escaping a control character. -/
def hexDigitChar (n : Nat) : Char :=
  if n < 10 then Char.ofNat (48 + n) else Char.ofNat (87 + n)

/-- JSON escaping of one character, per the `QuoteJSONString` algorithm
that `JSON.stringify` uses: quote and backslash get a backslash escape,
the five named control characters get their short escapes, any other
control character becomes a lowercase `\u00xx` escape, and every other
character stands for itself. -/
def escChar (c : Char) : List Char :=
  if c = '"' then ['\\', '"']
  else if c = '\\' then ['\\', '\\']
  else if c = Char.ofNat 8 then ['\\', 'b']
  else if c = Char.ofNat 9 then ['\\', 't']
  else if c = Char.ofNat 10 then ['\\', 'n']
  else if c = Char.ofNat 12 then ['\\', 'f']
  else if c = Char.ofNat 13 then ['\\', 'r']
  else if c.toNat < 32 then
    ['\\', 'u', '0', '0', hexDigitChar (c.toNat / 16), hexDigitChar (c.toNat % 16)]
  else [c]

/-- JSON escaping of a character list. -/
def escList (cs : List Char) : List Char := (cs.map escChar).flatten

/-- A JSON string literal: opening quote, escaped contents, closing
quote. -/
def quoteJ (s : String) : String := "\"" ++ String.mk (escList s.data) ++ "\""

/-- `JSON.stringify` applied to an `AppConfig` object whose fields were
inserted in the order of the object literal at src/index.ts lines
192-199 (clientID, apiUrl, redirectUrl, authEndpoint, signUpUrl,
signInUrl): no whitespace, insertion-order keys. -/
def stringifyAppConfig (c : AppConfig) : String :=
  "\x7b" ++ quoteJ "clientID" ++ ":" ++ quoteJ c.clientID
  ++ "," ++ quoteJ "apiUrl" ++ ":" ++ quoteJ c.apiUrl
  ++ "," ++ quoteJ "redirectUrl" ++ ":" ++ quoteJ c.redirectUrl
  ++ "," ++ quoteJ "authEndpoint" ++ ":" ++ quoteJ c.authEndpoint
  ++ "," ++ quoteJ "signUpUrl" ++ ":" ++ quoteJ c.signUpUrl
  ++ "," ++ quoteJ "signInUrl" ++ ":" ++ quoteJ c.signInUrl
  ++ "\x7d"

/-- The character denoted by a single-character JSON escape, when
valid. -/
def unescChar (e : Char) : Option Char :=
  if e = '"' then some '"'
  else if e = '\\' then some '\\'
  else if e = '/' then some '/'
  else if e = 'b' then some (Char.ofNat 8)
  else if e = 't' then some (Char.ofNat 9)
  else if e = 'n' then some (Char.ofNat 10)
  else if e = 'f' then some (Char.ofNat 12)
  else if e = 'r' then some (Char.ofNat 13)
  else none

/-- Value of a hexadecimal digit character, when it is one. -/
def hexVal (c : Char) : Option Nat :=
  if 48 ≤ c.toNat ∧ c.toNat ≤ 57 then some (c.toNat - 48)
  else if 97 ≤ c.toNat ∧ c.toNat ≤ 102 then some (c.toNat - 87)
  else if 65 ≤ c.toNat ∧ c.toNat ≤ 70 then some (c.toNat - 55)
  else none

/-- Decode a `\uXXXX` escape body: four hexadecimal digits, yielding
the denoted character and the remainder. -/
def parseHex4 (r : List Char) : Option (Char × List Char) :=
  match r with
  | h1 :: h2 :: h3 :: h4 :: r2 =>
    match hexVal h1, hexVal h2, hexVal h3, hexVal h4 with
    | some a, some b, some v1, some v2 =>
      some (Char.ofNat (((a * 16 + b) * 16 + v1) * 16 + v2), r2)
    | _, _, _, _ => none
  | _ => none

/-- Decode one escape sequence (the part after the backslash),
yielding the denoted character and the remainder. -/
def decodeEsc (rest : List Char) : Option (Char × List Char) :=
  match rest with
  | [] => none
  | e :: r =>
    if e = 'u' then parseHex4 r
    else match unescChar e with
      | none => none
      | some d => some (d, r)

/-- Parse the body of a JSON string literal (the part after the opening
quote) up to and including its closing quote, returning the decoded
characters and the unconsumed remainder. -/
def parseJStringAux (cs : List Char) : Option (List Char × List Char) :=
  match cs with
  | [] => none
  | c :: rest =>
    if c = '"' then some ([], rest)
    else if c = '\\' then
      match hde : decodeEsc rest with
      | none => none
      | some (d, r) =>
        (parseJStringAux r).map (fun p => (d :: p.1, p.2))
    else (parseJStringAux rest).map (fun p => (c :: p.1, p.2))
  termination_by cs.length
  decreasing_by
  · have key : ∀ (rs : List Char) (p : Char × List Char),
        decodeEsc rs = some p → p.2.length < rs.length := by
      intro rs p h
      obtain ⟨d0, r0⟩ := p
      unfold decodeEsc at h
      split at h
      · simp_all
      · split_ifs at h
        · unfold parseHex4 at h
          split at h
          · split at h
            · simp_all
              omega
            · simp_all
          · simp_all
        · split at h
          · simp_all
          · simp_all
    have hlen := key _ _ hde
    simp at hlen ⊢
    omega
  · simp

/-- Consume an exact literal prefix, returning the remainder. -/
def expect : List Char → List Char → Option (List Char)
  | [], cs => some cs
  | _ :: _, [] => none
  | p :: ps, c :: cs => if c = p then expect ps cs else none

/-- `JSON.parse` as exercised by the config read path, restricted to
the document shape Configuration Resolution publishes: an object with
exactly the six `AppConfig` string fields in publication order, no
whitespace.  Returns `none` where `JSON.parse` would throw or the
document is not such an object. -/
def jsonParseAppConfig (s : String) : Option AppConfig := do
  let r ← expect "\x7b\"clientID\":\"".data s.data
  let (cid, r) ← parseJStringAux r
  let r ← expect ",\"apiUrl\":\"".data r
  let (au, r) ← parseJStringAux r
  let r ← expect ",\"redirectUrl\":\"".data r
  let (ru, r) ← parseJStringAux r
  let r ← expect ",\"authEndpoint\":\"".data r
  let (ae, r) ← parseJStringAux r
  let r ← expect ",\"signUpUrl\":\"".data r
  let (su, r) ← parseJStringAux r
  let r ← expect ",\"signInUrl\":\"".data r
  let (si, r) ← parseJStringAux r
  let r ← expect "\x7d".data r
  if r = [] then
    pure { clientID := String.mk cid, apiUrl := String.mk au,
           redirectUrl := String.mk ru, authEndpoint := String.mk ae,
           signUpUrl := String.mk su, signInUrl := String.mk si }
  else none

/-- Errors a handler can surface.  `storeMiss` is the `Error("Doh!")`
thrown when the object or its body is absent; `parseError` is the
exception `JSON.parse` throws on an unreadable body; `fetchError` is a
transport-level rejection of the outbound fetch; `jsonError` is the
rejection of `resp.json()` on a non-JSON exchange response. -/
inductive HandlerError where
  | storeMiss
  | parseError
  | fetchError
  | jsonError
  deriving Repr, DecidableEq

/-- `getAppConfig` (src/index.ts lines 36-46): read the object at the
well-known key from the store, fail if it or its body is absent, parse
the body.  The store argument is the body of the object at
`config.json` when one exists. -/
def getAppConfig (store : Option String) : Except HandlerError AppConfig :=
  match store with
  | none => .error .storeMiss
  | some s =>
    match jsonParseAppConfig s with
    | none => .error .parseError
    | some c => .ok c

/-- An HTTP-level handler result: either a response the handler
returned, or an error it threw (surfaced by the gateway as a
5xx-equivalent, with no headers of the handler's making). -/
inductive HandlerOutcome where
  | response (statusCode : Nat) (body : String) (headers : List (String × String))
  | thrown (e : HandlerError)
  deriving Repr, DecidableEq

/-- The config-fetch handler (src/index.ts lines 54-63): re-serialize
the parsed config as the 200 body, propagating any `getAppConfig`
error. -/
def configHandler (store : Option String) : HandlerOutcome :=
  match getAppConfig store with
  | .error e => .thrown e
  | .ok c => .response 200 (stringifyAppConfig c) []

/-- Query-string parameters of a callback invocation; only `code` is
read by the handler. -/
structure QueryParams where
  code : Option String
  deriving Repr, DecidableEq

/-- A callback invocation event; `queryStringParameters` is absent when
the request carried no query string. -/
structure CallbackEvent where
  queryStringParameters : Option QueryParams
  deriving Repr, DecidableEq

/-- The outbound token-exchange request the callback handler issues via
`fetch`. -/
structure ExchangeRequest where
  url : String
  method : String
  contentType : String
  body : String
  deriving Repr, DecidableEq

/-- Observable result of the outbound exchange: a transport failure
(`fetch` rejects), a non-JSON body (`resp.json()` rejects), a JSON body
with no `id_token` field (reading it yields `undefined`), or a JSON
body whose `id_token` is the string `t`. -/
inductive ExchangeResult where
  | transportError
  | notJson
  | jsonWithoutIdToken
  | jsonWithIdToken (t : String)
  deriving Repr, DecidableEq

/-- Whether a JavaScript string value is truthy (defined and
non-empty), as tested by `!event.queryStringParameters.code`. -/
def truthyCode (q : QueryParams) : Bool :=
  match q.code with
  | none => false
  | some c => !(c = "")

/-- The callback / token-exchange handler (src/index.ts lines 67-105).
Returns the handler outcome together with the list of outbound
exchange requests issued, in order.  `store` is the config-store
contents and `exchange` the identity provider's observable behaviour
on the request actually sent. -/
def callbackHandler (event : CallbackEvent) (store : Option String)
    (exchange : ExchangeRequest → ExchangeResult) :
    HandlerOutcome × List ExchangeRequest :=
  match event.queryStringParameters with
  | none => (.response 400 "Bad request. Code property was missing." [], [])
  | some q =>
    if truthyCode q = false then
      (.response 400 "Bad request. Code property was missing." [], [])
    else
      match q.code with
      | none => (.response 400 "Bad request. Code property was missing." [], [])
      | some code =>
        match getAppConfig store with
        | .error e => (.thrown e, [])
        | .ok config =>
          let params := [
            "grant_type=authorization_code",
            "client_id=" ++ config.clientID,
            "redirect_uri=" ++ config.redirectUrl,
            "code=" ++ code]
          let req : ExchangeRequest :=
            { url := config.authEndpoint ++ "/oauth2/token",
              method := "POST",
              contentType := "application/x-www-form-urlencoded",
              body := String.intercalate "&" params }
          match exchange req with
          | .transportError => (.thrown .fetchError, [req])
          | .notJson => (.thrown .jsonError, [req])
          | .jsonWithoutIdToken =>
            (.response 302 "\x7b\x7d"
              [("Set-Cookie", "id=undefined"),
               ("Location", config.apiUrl ++ "?id=undefined")], [req])
          | .jsonWithIdToken t =>
            (.response 302 "\x7b\x7d"
              [("Set-Cookie", "id=" ++ t),
               ("Location", config.apiUrl ++ "?id=" ++ t)], [req])

/-- The authorized API handler (src/index.ts lines 117-122): a fixed
200 JSON payload, reached only behind the gateway authorizer. -/
def apiHandler : HandlerOutcome :=
  .response 200 "\x7b\"awesome\":true\x7d" []

/-- The deployment-level inputs `getAPIUrl` and `useCustomDomain` read:
the module constants `gatewayDomain`, `gatewayHostname`, `basePath`,
and the gateway's own generated base URL `api.url`. -/
structure Deployment where
  gatewayDomain : String
  gatewayHostname : String
  basePath : String
  apiGeneratedUrl : String
  deriving Repr, DecidableEq

/-- `useCustomDomain` (src/index.ts lines 127-129): the conjunction of
the truthiness of the three domain constants. -/
def useCustomDomain (d : Deployment) : Bool :=
  !(d.gatewayDomain = "") && !(d.gatewayHostname = "") && !(d.basePath = "")

/-- `getAPIUrl` (src/index.ts lines 212-217).  In custom-domain mode
the URL is assembled from hostname, base path and the optional
sub-path (`path ? path + '/' : ""`, so an absent or empty sub-path
contributes nothing and a non-empty one is suffixed with `/`);
otherwise the gateway's generated URL is returned unchanged. -/
def getAPIUrl (d : Deployment) (path : Option String) : String :=
  if useCustomDomain d then
    "https://" ++ d.gatewayHostname ++ "/" ++ d.basePath ++ "/" ++
      (match path with
       | some p => if p = "" then "" else p ++ "/"
       | none => "")
  else d.apiGeneratedUrl

/-- The AWS region constant (src/index.ts line 14). -/
def region : String := "us-east-1"

/-- The configuration-resolution step (src/index.ts lines 188-199):
given the registration's client identifier, the gateway URL, the
registered callback URL and the identity provider's domain prefix,
assemble the `AppConfig` object. -/
def resolveAppConfig (clientID apiUrl callbackUrl authEndpointDomain : String) :
    AppConfig :=
  let cognitoUrl :=
    "https://" ++ authEndpointDomain ++ ".auth." ++ region ++ ".amazoncognito.com"
  let cognitoUrlParams :=
    "client_id=" ++ clientID ++ "&response_type=code&redirect_uri=" ++ callbackUrl
  { clientID := clientID,
    apiUrl := apiUrl,
    redirectUrl := callbackUrl,
    authEndpoint := cognitoUrl,
    signUpUrl := cognitoUrl ++ "/signup?" ++ cognitoUrlParams,
    signInUrl := cognitoUrl ++ "/login?" ++ cognitoUrlParams }

/-- The callback-URL list of the identity provider client registration
(src/index.ts lines 180-182): the single element `getAPIUrl("callback")`. -/
def registrationCallbackUrls (d : Deployment) : List String :=
  [getAPIUrl d (some "callback")]

/-- The config blob as published for a deployment (src/index.ts lines
188-202 and 206-210): the resolution step applied to the
registration's identifier, `getAPIUrl()`, `getAPIUrl("callback")` and
the user-pool domain, serialized. -/
def publishedConfig (clientID : String) (d : Deployment)
    (authEndpointDomain : String) : String :=
  stringifyAppConfig
    (resolveAppConfig clientID (getAPIUrl d none) (getAPIUrl d (some "callback"))
      authEndpointDomain)

/-- A sample resolved configuration used to instantiate handler
theorems on concrete inputs. -/
def cfg0 : AppConfig :=
  resolveAppConfig "abc123" "https://api.nunciato.org/stage/"
    "https://api.nunciato.org/stage/callback/" "cnunciato-test"

/-- A JavaScript value as `JSON.parse` can produce it.  Numbers appear
only as exact integers: the general model below abstains (it gives no
verdict) on any document whose number lexemes would require IEEE-754
float semantics to re-serialize. -/
inductive Json where
  | null
  | bool (b : Bool)
  | num (n : Int)
  | str (s : String)
  | arr (elems : List Json)
  | obj (members : List (String × Json))
  deriving Repr

mutual

/-- The modelled `JSON.stringify` on general values: no indentation,
insertion-order keys, strings quoted with the escape model above,
integers in plain decimal. -/
def stringifyJson : Json → String
  | .null => "null"
  | .bool true => "true"
  | .bool false => "false"
  | .num n => n.repr
  | .str s => quoteJ s
  | .arr vs => "[" ++ stringifyJsonList vs ++ "]"
  | .obj ms => "\x7b" ++ stringifyJsonMembers ms ++ "\x7d"

/-- Array elements, comma-separated. -/
def stringifyJsonList : List Json → String
  | [] => ""
  | [v] => stringifyJson v
  | v :: vs => stringifyJson v ++ "," ++ stringifyJsonList vs

/-- Object members, `key:value` comma-separated. -/
def stringifyJsonMembers : List (String × Json) → String
  | [] => ""
  | [m] => quoteJ m.1 ++ ":" ++ stringifyJson m.2
  | m :: ms => quoteJ m.1 ++ ":" ++ stringifyJson m.2 ++ "," ++ stringifyJsonMembers ms

end

theorem parseJStringAux_nil : parseJStringAux [] = none := by
  rw [parseJStringAux]

theorem parseJStringAux_cons (c : Char) (rest : List Char) :
    parseJStringAux (c :: rest) =
      if c = '"' then some ([], rest)
      else if c = '\\' then
        match decodeEsc rest with
        | none => none
        | some (d, r) => (parseJStringAux r).map (fun p => (d :: p.1, p.2))
      else (parseJStringAux rest).map (fun p => (c :: p.1, p.2)) := by
  rw [parseJStringAux]
  by_cases h1 : c = '"'
  · simp [h1]
  · by_cases h2 : c = '\\'
    · simp [h1, h2]
      split
      all_goals rename_i heq
      · simp [heq]
      · simp [heq]
    · simp [h1, h2]

theorem hexVal_hexDigitChar (n : Nat) (h : n < 16) :
    hexVal (hexDigitChar n) = some n := by
  interval_cases n <;> decide

theorem decodeEsc_u (c : Char) (h : c.toNat < 32) (r2 : List Char) :
    decodeEsc ('u' :: '0' :: '0' :: hexDigitChar (c.toNat / 16)
        :: hexDigitChar (c.toNat % 16) :: r2)
      = some (c, r2) := by
  have hv1 : c.toNat / 16 < 16 := by omega
  have hv2 : c.toNat % 16 < 16 := by omega
  have h0 : hexVal '0' = some 0 := by decide
  have e1 := hexVal_hexDigitChar _ hv1
  have e2 := hexVal_hexDigitChar _ hv2
  simp [decodeEsc, parseHex4, h0, e1, e2]
  have hn : c.toNat / 16 * 16 + c.toNat % 16 = c.toNat := by
    omega
  rw [hn, Char.ofNat_toNat]

theorem parse_escList (cs : List Char) (rest : List Char) :
    parseJStringAux (escList cs ++ '"' :: rest) = some (cs, rest) := by
  induction cs with
  | nil =>
    rw [escList]
    simp only [List.map_nil, List.flatten_nil, List.nil_append]
    rw [parseJStringAux_cons]
    simp
  | cons c cs ih =>
    have hesc : escList (c :: cs) = escChar c ++ escList cs := by
      simp [escList]
    rw [hesc, List.append_assoc, escChar]
    split_ifs with h1 h2 h3 h4 h5 h6 h7 h8
    · subst h1
      rw [List.cons_append, List.cons_append, List.nil_append, parseJStringAux_cons]
      simp [decodeEsc, unescChar, ih]
    · subst h2
      rw [List.cons_append, List.cons_append, List.nil_append, parseJStringAux_cons]
      simp [decodeEsc, unescChar, ih]
    · subst h3
      rw [List.cons_append, List.cons_append, List.nil_append, parseJStringAux_cons]
      simp [decodeEsc, unescChar, ih]
    · subst h4
      rw [List.cons_append, List.cons_append, List.nil_append, parseJStringAux_cons]
      simp [decodeEsc, unescChar, ih]
    · subst h5
      rw [List.cons_append, List.cons_append, List.nil_append, parseJStringAux_cons]
      simp [decodeEsc, unescChar, ih]
    · subst h6
      rw [List.cons_append, List.cons_append, List.nil_append, parseJStringAux_cons]
      simp [decodeEsc, unescChar, ih]
    · subst h7
      rw [List.cons_append, List.cons_append, List.nil_append, parseJStringAux_cons]
      simp [decodeEsc, unescChar, ih]
    · rw [List.cons_append, List.cons_append, List.cons_append, List.cons_append,
        List.cons_append, List.cons_append, List.nil_append, parseJStringAux_cons]
      simp [decodeEsc_u c h8, ih]
    · rw [List.cons_append, List.nil_append, parseJStringAux_cons]
      simp [h1, h2, ih]

theorem stringify_data (c : AppConfig) :
    (stringifyAppConfig c).data =
      "\x7b\"clientID\":\"".data ++ (escList c.clientID.data ++ '"' ::
      (",\"apiUrl\":\"".data ++ (escList c.apiUrl.data ++ '"' ::
      (",\"redirectUrl\":\"".data ++ (escList c.redirectUrl.data ++ '"' ::
      (",\"authEndpoint\":\"".data ++ (escList c.authEndpoint.data ++ '"' ::
      (",\"signUpUrl\":\"".data ++ (escList c.signUpUrl.data ++ '"' ::
      (",\"signInUrl\":\"".data ++ (escList c.signInUrl.data ++ '"' ::
      "\x7d".data))))))))))) := by
  have e1 : escList "clientID".data = "clientID".data := by decide
  have e2 : escList "apiUrl".data = "apiUrl".data := by decide
  have e3 : escList "redirectUrl".data = "redirectUrl".data := by decide
  have e4 : escList "authEndpoint".data = "authEndpoint".data := by decide
  have e5 : escList "signUpUrl".data = "signUpUrl".data := by decide
  have e6 : escList "signInUrl".data = "signInUrl".data := by decide
  simp [stringifyAppConfig, quoteJ, e1, e2, e3, e4, e5, e6]

theorem jsonParse_stringify (c : AppConfig) :
    jsonParseAppConfig (stringifyAppConfig c) = some c := by
  rw [jsonParseAppConfig, stringify_data]
  simp [expect, parse_escList, Option.bind]

/-! ## Claim theorems -/

/-- C8: every `AppConfig` assembled by Configuration Resolution has
`signUpUrl` equal to `authEndpoint` + `/signup?` + Q and `signInUrl`
equal to `authEndpoint` + `/login?` + Q, where Q lists `client_id` =
the config's own `clientID`, `response_type=code`, and `redirect_uri` =
the config's own `redirectUrl`, in that fixed order. -/
theorem resolveAppConfig_authUrls (clientID apiUrl callbackUrl dom : String) :
    (resolveAppConfig clientID apiUrl callbackUrl dom).signUpUrl
      = (resolveAppConfig clientID apiUrl callbackUrl dom).authEndpoint
        ++ "/signup?"
        ++ ("client_id=" ++ (resolveAppConfig clientID apiUrl callbackUrl dom).clientID
            ++ "&response_type=code&redirect_uri="
            ++ (resolveAppConfig clientID apiUrl callbackUrl dom).redirectUrl)
    ∧ (resolveAppConfig clientID apiUrl callbackUrl dom).signInUrl
      = (resolveAppConfig clientID apiUrl callbackUrl dom).authEndpoint
        ++ "/login?"
        ++ ("client_id=" ++ (resolveAppConfig clientID apiUrl callbackUrl dom).clientID
            ++ "&response_type=code&redirect_uri="
            ++ (resolveAppConfig clientID apiUrl callbackUrl dom).redirectUrl) :=
  ⟨rfl, rfl⟩

/-- C9: for every deployment (custom-domain mode on or off), the
`redirectUrl` written into the resolved `AppConfig` is byte-identical
to the single element of the client registration's callback-URL
list. -/
theorem redirectUrl_matches_registration (clientID : String) (d : Deployment)
    (dom : String) :
    registrationCallbackUrls d
      = [(resolveAppConfig clientID (getAPIUrl d none)
          (getAPIUrl d (some "callback")) dom).redirectUrl] :=
  rfl

/-- C2, counterexample: with the custom-domain flag off, the derived
URL for sub-path `callback` is the generated base URL unchanged, not
the base URL followed by a `/callback` (or `callback/`) path, so the
claimed shape fails outside custom-domain mode. -/
theorem getAPIUrl_subPath_dropped_counterexample :
    getAPIUrl ⟨"", "", "", "https://x9y8z7.execute-api.us-east-1.amazonaws.com/stage/"⟩
        (some "callback")
      = getAPIUrl ⟨"", "", "", "https://x9y8z7.execute-api.us-east-1.amazonaws.com/stage/"⟩ none
    ∧ getAPIUrl ⟨"", "", "", "https://x9y8z7.execute-api.us-east-1.amazonaws.com/stage/"⟩
        (some "callback")
      ≠ getAPIUrl ⟨"", "", "", "https://x9y8z7.execute-api.us-east-1.amazonaws.com/stage/"⟩ none
        ++ "/callback"
    ∧ getAPIUrl ⟨"", "", "", "https://x9y8z7.execute-api.us-east-1.amazonaws.com/stage/"⟩
        (some "callback")
      ≠ getAPIUrl ⟨"", "", "", "https://x9y8z7.execute-api.us-east-1.amazonaws.com/stage/"⟩ none
        ++ "callback/" := by
  refine ⟨rfl, ?_, ?_⟩ <;> decide

/-- C2, amended: for every non-empty sub-path p, the derived URL in
custom-domain mode equals the base URL followed by p and a trailing
slash; with the flag off, `getAPIUrl` returns the generated base URL
unchanged and the sub-path (including `callback` and `logout`) is
dropped. -/
theorem getAPIUrl_subPath (d : Deployment) (p : String) (hp : p ≠ "") :
    (useCustomDomain d = true →
      getAPIUrl d (some p) = getAPIUrl d none ++ (p ++ "/"))
    ∧ (useCustomDomain d = false →
      getAPIUrl d (some p) = getAPIUrl d none) := by
  constructor
  · intro hcd
    simp only [getAPIUrl, hcd, if_true, if_neg hp]
    apply String.ext
    simp [String.data_append]
  · intro hcd
    simp [getAPIUrl, hcd]

/-- C2, witness for the amended claim at a concrete custom-domain
deployment and sub-path. -/
theorem getAPIUrl_subPath_witness :
    getAPIUrl ⟨"nunciato.org", "api.nunciato.org", "stage", "u"⟩ (some "callback")
      = getAPIUrl ⟨"nunciato.org", "api.nunciato.org", "stage", "u"⟩ none
        ++ ("callback" ++ "/") :=
  (getAPIUrl_subPath ⟨"nunciato.org", "api.nunciato.org", "stage", "u"⟩ "callback"
    (by decide)).1 (by decide)

/-- C10: in custom-domain mode the base-URL derivation always produces
a URL with a trailing slash: with no sub-path it returns
`https://` + hostname + `/` + basePath + `/`, and with a non-empty
sub-path p it returns that base followed by p + `/` (the sub-path is
itself suffixed with a slash; an empty sub-path string is treated by
the source's truthiness test like an absent one). -/
theorem getAPIUrl_trailing_slash (d : Deployment) (p : String)
    (hcd : useCustomDomain d = true) (hp : p ≠ "") :
    getAPIUrl d none = "https://" ++ d.gatewayHostname ++ "/" ++ d.basePath ++ "/"
    ∧ getAPIUrl d (some p)
      = "https://" ++ d.gatewayHostname ++ "/" ++ d.basePath ++ "/" ++ p ++ "/" := by
  constructor
  · simp only [getAPIUrl, hcd, if_true]
    apply String.ext
    simp [String.data_append]
  · simp only [getAPIUrl, hcd, if_true, if_neg hp]
    apply String.ext
    simp [String.data_append]

/-- C10, witness at a concrete custom-domain deployment. -/
theorem getAPIUrl_trailing_slash_witness :
    getAPIUrl ⟨"nunciato.org", "api.nunciato.org", "stage", "u"⟩ none
      = "https://" ++ "api.nunciato.org" ++ "/" ++ "stage" ++ "/"
    ∧ getAPIUrl ⟨"nunciato.org", "api.nunciato.org", "stage", "u"⟩ (some "callback")
      = "https://" ++ "api.nunciato.org" ++ "/" ++ "stage" ++ "/" ++ "callback" ++ "/" :=
  getAPIUrl_trailing_slash ⟨"nunciato.org", "api.nunciato.org", "stage", "u"⟩
    "callback" (by decide) (by decide)

/-- C3: every callback invocation with no query-string parameters or no
`code` parameter yields status 400 with the human-readable message, and
no outbound token-exchange request is ever issued. -/
theorem callback_missing_code (event : CallbackEvent) (store : Option String)
    (exchange : ExchangeRequest → ExchangeResult)
    (h : event.queryStringParameters = none ∨
      ∃ q, event.queryStringParameters = some q ∧ q.code = none) :
    callbackHandler event store exchange
      = (.response 400 "Bad request. Code property was missing." [], []) := by
  rcases h with h | ⟨q, hq, hcode⟩
  · simp [callbackHandler, h]
  · simp [callbackHandler, hq, truthyCode, hcode]

/-- C3, witness: a request with no query string at all. -/
theorem callback_missing_code_witness :
    callbackHandler ⟨none⟩ none (fun _ => .transportError)
      = (.response 400 "Bad request. Code property was missing." [], []) :=
  callback_missing_code ⟨none⟩ none (fun _ => .transportError) (Or.inl rfl)

/-- C4: a callback invocation with `code` parameter whose exchange
response is JSON carrying `id_token` = t returns status 302 with
`Set-Cookie` header `id=` + t and `Location` header apiUrl + `?id=` + t. -/
theorem callback_success (q : QueryParams) (c t : String) (store : Option String)
    (config : AppConfig) (exchange : ExchangeRequest → ExchangeResult)
    (hq : q.code = some c) (hc : c ≠ "")
    (hcfg : getAppConfig store = .ok config)
    (hex : exchange
        { url := config.authEndpoint ++ "/oauth2/token", method := "POST",
          contentType := "application/x-www-form-urlencoded",
          body := String.intercalate "&"
            ["grant_type=authorization_code", "client_id=" ++ config.clientID,
             "redirect_uri=" ++ config.redirectUrl, "code=" ++ c] }
      = .jsonWithIdToken t) :
    (callbackHandler ⟨some q⟩ store exchange).1
      = .response 302 "\x7b\x7d"
          [("Set-Cookie", "id=" ++ t), ("Location", config.apiUrl ++ "?id=" ++ t)] := by
  simp [callbackHandler, truthyCode, hq, hc, hcfg, hex]

/-- C4, witness: concrete code, published config, and provider
returning an `id_token`. -/
theorem callback_success_witness :
    (callbackHandler ⟨some ⟨some "abc"⟩⟩ (some (stringifyAppConfig cfg0))
        (fun _ => .jsonWithIdToken "tok123")).1
      = .response 302 "\x7b\x7d"
          [("Set-Cookie", "id=" ++ "tok123"),
           ("Location", cfg0.apiUrl ++ "?id=" ++ "tok123")] :=
  callback_success ⟨some "abc"⟩ "abc" "tok123" (some (stringifyAppConfig cfg0)) cfg0
    (fun _ => .jsonWithIdToken "tok123") rfl (by decide)
    (by simp [getAppConfig, jsonParse_stringify]) rfl

/-- C5: a callback invocation with a `code` parameter and a loaded
config issues exactly one outbound POST, to authEndpoint +
`/oauth2/token`, form-encoded, with exactly the four parameters joined
by `&` in the fixed order, regardless of the exchange's outcome (no
retry). -/
theorem callback_single_exchange (q : QueryParams) (c : String)
    (store : Option String) (config : AppConfig)
    (exchange : ExchangeRequest → ExchangeResult)
    (hq : q.code = some c) (hc : c ≠ "")
    (hcfg : getAppConfig store = .ok config) :
    (callbackHandler ⟨some q⟩ store exchange).2
      = [{ url := config.authEndpoint ++ "/oauth2/token", method := "POST",
           contentType := "application/x-www-form-urlencoded",
           body := String.intercalate "&"
             ["grant_type=authorization_code", "client_id=" ++ config.clientID,
              "redirect_uri=" ++ config.redirectUrl, "code=" ++ c] }] := by
  simp only [callbackHandler, truthyCode, hq, hcfg]
  rw [if_neg (by simp [hc])]
  split <;> rfl

/-- C5, witness: same concrete instantiation, provider failing
transport-level, still exactly one request. -/
theorem callback_single_exchange_witness :
    (callbackHandler ⟨some ⟨some "abc"⟩⟩ (some (stringifyAppConfig cfg0))
        (fun _ => .transportError)).2
      = [{ url := cfg0.authEndpoint ++ "/oauth2/token", method := "POST",
           contentType := "application/x-www-form-urlencoded",
           body := String.intercalate "&"
             ["grant_type=authorization_code", "client_id=" ++ cfg0.clientID,
              "redirect_uri=" ++ cfg0.redirectUrl, "code=" ++ "abc"] }] :=
  callback_single_exchange ⟨some "abc"⟩ "abc" (some (stringifyAppConfig cfg0)) cfg0
    (fun _ => .transportError) rfl (by decide)
    (by simp [getAppConfig, jsonParse_stringify])

/-- C1, failing-input evaluation: when the provider's response is JSON
without an `id_token` field, the handler does NOT fail; it returns 302
and sets `Set-Cookie: id=undefined` and a `Location` ending in
`?id=undefined` (JavaScript interpolates the missing field as the
string `undefined`), contradicting the claimed `TokenExchangeFailed`
5xx with no cookie and no redirect. -/
theorem callback_idToken_absent_redirects :
    callbackHandler ⟨some ⟨some "abc"⟩⟩ (some (stringifyAppConfig cfg0))
        (fun _ => .jsonWithoutIdToken)
      = (.response 302 "\x7b\x7d"
          [("Set-Cookie", "id=undefined"),
           ("Location", cfg0.apiUrl ++ "?id=undefined")],
         [{ url := cfg0.authEndpoint ++ "/oauth2/token", method := "POST",
            contentType := "application/x-www-form-urlencoded",
            body := String.intercalate "&"
              ["grant_type=authorization_code", "client_id=" ++ cfg0.clientID,
               "redirect_uri=" ++ cfg0.redirectUrl, "code=" ++ "abc"] }]) := by
  have hcfg : getAppConfig (some (stringifyAppConfig cfg0)) = .ok cfg0 := by
    simp [getAppConfig, jsonParse_stringify]
  simp [callbackHandler, truthyCode, hcfg]

/-- C6: reading back any blob published by Configuration Resolution,
the config-fetch handler returns it byte-for-byte as the 200 body
(parse then re-serialize is the identity on published configs); before
any write the handler throws the store-miss error instead of producing
a body. -/
theorem configHandler_roundtrip (clientID : String) (d : Deployment) (dom : String) :
    configHandler (some (publishedConfig clientID d dom))
      = .response 200 (publishedConfig clientID d dom) []
    ∧ configHandler none = .thrown .storeMiss := by
  constructor
  · simp [configHandler, getAppConfig, publishedConfig, jsonParse_stringify]
  · rfl

